import Mathlib

/-!
Shallow embedding, in Lean 4, of the parts of the Buster web front-end that
the verified claims are about:

* `pieTooltipHelper` and `getPiePercentage` from
  `src/web/src/components/charts/BusterChartJS/hooks/useOptions/useTooltipOptions.ts/pieTooltipHelper.ts`;
* `useXAxisTitle` from the same file;
* the permission-group REST request functions from
  `src/web/src/api/buster-rest/permission_groups/requests.ts`;
* the dataset-group query/mutation hooks from
  `src/web/src/api/buster-rest/dataset_groups/queryRequests.ts`;
* the row construction of `UserDatasetsListContainer` from
  `src/web/src/app/app/settings/users/[userId]/datasets/UserDatasetsListContainer.tsx`.

Modelling conventions: TypeScript numbers are modelled by `ℚ`; fields the
verified code never inspects (column label formats, the extra fields of DTO
rows) are abstract type parameters; external helpers imported from modules
outside the embedded files (`percentageFormatter`, `formatChartLabelDelimiter`,
`formatChartValueDelimiter`, `formatLabel`, `createBusterRoute`, the HTTP
client `mainApi`, and the dataset-group request functions) are function
parameters, so every theorem holds for the actual helpers as a special case.
Promises are modelled by `Except` together with an explicit trace of the
effects a call performs, in the order it performs them.
-/

namespace Buster

/-- model of a chart.js `ChartDataset`, restricted to the fields that
`pieTooltipHelper` reads: `label`, `hidden`, `data` and `backgroundColor`. -/
structure ChartDataset where
  label : String
  hidden : Bool
  data : List ℚ
  backgroundColor : List String
  deriving Inhabited, DecidableEq

/-- model of the `$totalizer` plugin state stored on the chart: the per-series
totals array. -/
structure Totalizer where
  seriesTotals : List ℚ
  deriving Inhabited

/-- model of a chart.js `Chart`, restricted to the `$totalizer` property
(the field is called `totalizer` because `$` is not a Lean identifier
character). -/
structure Chart where
  totalizer : Totalizer
  deriving Inhabited

/-- model of a chart.js `TooltipItem`: the fields `dataIndex` and
`datasetIndex` read by `pieTooltipHelper`. -/
structure TooltipPoint where
  dataIndex : Nat
  datasetIndex : Nat
  deriving Inhabited, DecidableEq

/-- one entry of the `values` list of an `ITooltipItem`. -/
structure ITooltipValue where
  formattedValue : String
  formattedLabel : String
  formattedPercentage : Option String
  deriving Inhabited, DecidableEq

/-- model of the `ITooltipItem` DTO returned by the tooltip helpers. -/
structure ITooltipItem where
  usePercentage : Bool
  color : Option String
  seriesType : String
  formattedLabel : String
  values : List ITooltipValue
  deriving Inhabited, DecidableEq

/-- TypeScript `Array.prototype.findIndex`: the index of the first element
satisfying `p`, and `-1` when no element does. -/
def tsFindIndex {α : Type} (p : α → Bool) (l : List α) : Int :=
  match l.findIdx? p with
  | some i => (i : Int)
  | none => -1

/-- TypeScript numeric array indexing `l[i]` for a possibly negative index,
with out-of-bounds reads (which are `undefined` in TypeScript and only occur
outside the hypotheses of the theorems below) mapped to `0`. -/
def numAt (l : List ℚ) (i : Int) : ℚ :=
  if 0 ≤ i then l.getD i.toNat 0 else 0

/-- embedding of `getPiePercentage`: reads the compared value from the dataset
data at the data index, the total from `chart.$totalizer.seriesTotals` at the
dataset index, and formats `(compareValue / total) * 100` with
`percentageFormatter`. `F` is the type of the column-label-format map and
`percentageFormatter` is the helper imported from `./helper`, kept abstract. -/
def getPiePercentage {F : Type} (percentageFormatter : ℚ → String → F → String)
    (dataPointDataIndex : Nat) (datasetIndex : Int) (datasetData : List ℚ)
    (label : String) (columnLabelFormats : F) (chart : Chart) : String :=
  let compareValue := datasetData.getD dataPointDataIndex 0
  let totalizer := chart.totalizer
  let total := numAt totalizer.seriesTotals datasetIndex
  let percentage := (compareValue / total) * 100
  percentageFormatter percentage label columnLabelFormats

/-- embedding of `pieTooltipHelper`. The three formatting helpers imported
from other modules are abstract function parameters. The active data point is
`dataPoints[0]` (the source uses a non-null assertion; the theorems assume
`dataPoints` is non-empty). -/
def pieTooltipHelper {F : Type}
    (formatChartLabelDelimiter : String → F → String)
    (formatChartValueDelimiter : ℚ → String → F → String)
    (percentageFormatter : ℚ → String → F → String)
    (datasets : List ChartDataset) (dataPoints : List TooltipPoint)
    (chart : Chart) (columnLabelFormats : F)
    (keyToUsePercentage : List String) : List ITooltipItem :=
  let dataPointDataIndex := (dataPoints.headD default).dataIndex
  let dataPointDatasetIndex := (dataPoints.headD default).datasetIndex
  let dataPointDataset := datasets.getD dataPointDatasetIndex default
  let tooltipDatasets := datasets.filter (fun dataset => dataset.hidden)
  let dataPointIsInTooltip :=
    tooltipDatasets.any (fun dataset => dataset.label == dataPointDataset.label)
  if !dataPointIsInTooltip then
    []
  else
    tooltipDatasets.map (fun tooltipDataset =>
      let isActiveDataset := tooltipDataset.label == dataPointDataset.label
      let color :=
        if isActiveDataset then dataPointDataset.backgroundColor.get? dataPointDataIndex
        else none
      let formattedLabel := formatChartLabelDelimiter tooltipDataset.label columnLabelFormats
      let rawValue := tooltipDataset.data.getD dataPointDataIndex 0
      let formattedValue :=
        formatChartValueDelimiter rawValue tooltipDataset.label columnLabelFormats
      let usePercentage := keyToUsePercentage.contains tooltipDataset.label
      let formattedPercentage :=
        if usePercentage then
          some (getPiePercentage percentageFormatter dataPointDataIndex
            (tsFindIndex (fun dataset => dataset.label == tooltipDataset.label && dataset.hidden)
              datasets)
            tooltipDataset.data tooltipDataset.label columnLabelFormats chart)
        else none
      { usePercentage := usePercentage
        color := color
        seriesType := "pie"
        formattedLabel := formattedLabel
        values := [{ formattedValue := formattedValue
                     formattedLabel := formattedLabel
                     formattedPercentage := formattedPercentage }] })

/-- C1: for every data index `i`, dataset index `j`, data array `d`, label,
column-label-format map, and chart whose totalizer series totals are defined
at `j`, `getPiePercentage` returns
`percentageFormatter ((d[i] / chart.$totalizer.seriesTotals[j]) * 100)`:
the percentage is the raw value at the data index divided by the series
total, multiplied by `100`, and then formatted by the locale/format helper. -/
theorem getPiePercentage_value_over_total {F : Type}
    (percentageFormatter : ℚ → String → F → String)
    (i j : Nat) (d : List ℚ) (label : String) (formats : F) (chart : Chart)
    (hi : i < d.length) (hj : j < chart.totalizer.seriesTotals.length) :
    getPiePercentage percentageFormatter i (j : Int) d label formats chart =
      percentageFormatter ((d[i] / chart.totalizer.seriesTotals[j]) * 100) label formats := by
  unfold getPiePercentage numAt
  simp [List.getD_eq_getElem?_getD, List.getElem?_eq_getElem, hi, hj]

/-- concrete instantiation of `getPiePercentage_value_over_total` discharging its
bounds hypotheses: value `1`, total `4`, so the formatted percentage is `25`. -/
theorem getPiePercentage_value_over_total_witness :
    getPiePercentage (fun q (_ : String) (_ : Unit) => toString q) 0 (0 : Int)
        [1, 3] "a" () ⟨⟨[4]⟩⟩ = toString ((25 : ℚ)) := by
  have h := getPiePercentage_value_over_total (fun q (_ : String) (_ : Unit) => toString q)
    0 0 [1, 3] "a" () ⟨⟨[4]⟩⟩ (by decide) (by decide)
  norm_num at h
  simpa using h

/-- C2: with a non-empty `dataPoints` list whose active dataset label matches
some hidden dataset, `pieTooltipHelper` returns exactly one tooltip item per
hidden dataset of `datasets`, in their order in that array. Each item carries
the hidden dataset's formatted label and its (formatted) value at the active
data index; visible datasets contribute no item; and when a percentage is
shown it is the value divided by the totalizer series total at the index of
the first hidden dataset with the matching label, times `100`, formatted. -/
theorem pieTooltipHelper_one_item_per_hidden_dataset {F : Type}
    (formatChartLabelDelimiter : String → F → String)
    (formatChartValueDelimiter : ℚ → String → F → String)
    (percentageFormatter : ℚ → String → F → String)
    (datasets : List ChartDataset) (dataPoints : List TooltipPoint)
    (chart : Chart) (columnLabelFormats : F) (keyToUsePercentage : List String)
    (hne : dataPoints ≠ [])
    (hidx : (dataPoints.headD default).datasetIndex < datasets.length)
    (hmatch : ∃ ds ∈ datasets, ds.hidden = true ∧
      ds.label = (datasets.getD (dataPoints.headD default).datasetIndex default).label) :
    pieTooltipHelper formatChartLabelDelimiter formatChartValueDelimiter percentageFormatter
        datasets dataPoints chart columnLabelFormats keyToUsePercentage =
      (datasets.filter (fun dataset => dataset.hidden)).map (fun tooltipDataset =>
        { usePercentage := keyToUsePercentage.contains tooltipDataset.label
          color :=
            if tooltipDataset.label ==
                (datasets.getD (dataPoints.headD default).datasetIndex default).label then
              (datasets.getD (dataPoints.headD default).datasetIndex
                default).backgroundColor.get? (dataPoints.headD default).dataIndex
            else none
          seriesType := "pie"
          formattedLabel := formatChartLabelDelimiter tooltipDataset.label columnLabelFormats
          values := [{ formattedValue := formatChartValueDelimiter
                         (tooltipDataset.data.getD (dataPoints.headD default).dataIndex 0)
                         tooltipDataset.label columnLabelFormats
                       formattedLabel :=
                         formatChartLabelDelimiter tooltipDataset.label columnLabelFormats
                       formattedPercentage :=
                         if keyToUsePercentage.contains tooltipDataset.label then
                           some (percentageFormatter
                             ((tooltipDataset.data.getD (dataPoints.headD default).dataIndex 0 /
                               numAt chart.totalizer.seriesTotals
                                 (tsFindIndex
                                   (fun dataset =>
                                     dataset.label == tooltipDataset.label && dataset.hidden)
                                   datasets)) * 100)
                             tooltipDataset.label columnLabelFormats)
                         else none }] }) := by
  have hani : (datasets.filter (fun dataset => dataset.hidden)).any
      (fun dataset =>
        dataset.label ==
          (datasets.getD (dataPoints.headD default).datasetIndex default).label) = true := by
    rcases hmatch with ⟨ds, hmem, hh, hl⟩
    simp only [List.any_eq_true, List.mem_filter]
    exact ⟨ds, ⟨hmem, hh⟩, by simp [hl]⟩
  unfold pieTooltipHelper
  dsimp only
  rw [hani]
  rfl

/-- concrete instantiation of `pieTooltipHelper_one_item_per_hidden_dataset`
on a one-dataset chart, discharging its three hypotheses. -/
theorem pieTooltipHelper_one_item_per_hidden_dataset_witness :
    pieTooltipHelper (fun _ (_ : Unit) => "l") (fun _ _ _ => "v") (fun _ _ _ => "p")
        [⟨"a", true, [2], ["red"]⟩] [⟨0, 0⟩] ⟨⟨[4]⟩⟩ () ["a"] =
      [{ usePercentage := true
         color := some "red"
         seriesType := "pie"
         formattedLabel := "l"
         values := [{ formattedValue := "v", formattedLabel := "l",
                      formattedPercentage := some "p" }] }] := by
  have h := pieTooltipHelper_one_item_per_hidden_dataset
    (fun _ (_ : Unit) => "l") (fun _ _ _ => "v") (fun _ _ _ => "p")
    [⟨"a", true, [2], ["red"]⟩] [⟨0, 0⟩] ⟨⟨[4]⟩⟩ () ["a"]
    (by decide) (by decide) ⟨⟨"a", true, [2], ["red"]⟩, by simp, rfl, rfl⟩
  rw [h]
  rfl

/-- C8: when the active data point's dataset label equals the label of no
hidden dataset of `datasets`, `pieTooltipHelper` produces no tooltip items. -/
theorem pieTooltipHelper_no_hidden_match_empty {F : Type}
    (formatChartLabelDelimiter : String → F → String)
    (formatChartValueDelimiter : ℚ → String → F → String)
    (percentageFormatter : ℚ → String → F → String)
    (datasets : List ChartDataset) (dataPoints : List TooltipPoint)
    (chart : Chart) (columnLabelFormats : F) (keyToUsePercentage : List String)
    (hne : dataPoints ≠ [])
    (hidx : (dataPoints.headD default).datasetIndex < datasets.length)
    (hnomatch : ∀ ds ∈ datasets, ds.hidden = true →
      ds.label ≠ (datasets.getD (dataPoints.headD default).datasetIndex default).label) :
    pieTooltipHelper formatChartLabelDelimiter formatChartValueDelimiter percentageFormatter
        datasets dataPoints chart columnLabelFormats keyToUsePercentage = [] := by
  have hani : (datasets.filter (fun dataset => dataset.hidden)).any
      (fun dataset =>
        dataset.label ==
          (datasets.getD (dataPoints.headD default).datasetIndex default).label) = false := by
    rw [← Bool.not_eq_true, List.any_eq_true]
    rintro ⟨ds, hmem, hl⟩
    rw [List.mem_filter] at hmem
    exact hnomatch ds hmem.1 hmem.2 (by simpa using hl)
  unfold pieTooltipHelper
  dsimp only
  rw [hani]
  rfl

/-- concrete instantiation of `pieTooltipHelper_no_hidden_match_empty`: the
active dataset is visible with label `a`, the only hidden dataset has label
`b`, and the helper returns the empty list. -/
theorem pieTooltipHelper_no_hidden_match_empty_witness :
    pieTooltipHelper (fun _ (_ : Unit) => "l") (fun _ _ _ => "v") (fun _ _ _ => "p")
        [⟨"a", false, [2], []⟩, ⟨"b", true, [3], []⟩] [⟨0, 0⟩] ⟨⟨[4]⟩⟩ () [] = [] := by
  exact pieTooltipHelper_no_hidden_match_empty
    (fun _ (_ : Unit) => "l") (fun _ _ _ => "v") (fun _ _ _ => "p")
    [⟨"a", false, [2], []⟩, ⟨"b", true, [3], []⟩] [⟨0, 0⟩] ⟨⟨[4]⟩⟩ () []
    (by decide) (by decide) (by decide)

/-- JavaScript `a || b` for `a : string | null | undefined` modelled as
`Option String`: the left operand when it is a truthy (non-empty) string,
otherwise the right operand. -/
def jsOrElse (a : Option String) (b : String) : String :=
  match a with
  | some s => if s == "" then b else s
  | none => b

/-- embedding of the `useXAxisTitle` hook body. `formatLabel` (from
`@/utils/columnFormatter`) and the `AXIS_TITLE_SEPARATOR` constant (from
`./axisHelper`) are abstract parameters; `columnLabelFormats` is the lookup
map sending a column key to its (optional) format; `selectedAxisX` is
`selectedAxis.x`. The hook's memoised `xAxisColumnLabelFormats` value does not
influence the returned string and is omitted. -/
def useXAxisTitle {F : Type} (formatLabel : String → Option F → Bool → String)
    (axisTitleSeparator : String) (columnLabelFormats : String → Option F)
    (isSupportedChartForAxisTitles : Bool) (xAxisAxisTitle : Option String)
    (xAxisShowAxisTitle : Bool) (selectedAxisX : List String) : String :=
  if !isSupportedChartForAxisTitles || xAxisAxisTitle == some "" || !xAxisShowAxisTitle then ""
  else
    jsOrElse xAxisAxisTitle
      (String.intercalate axisTitleSeparator
        (selectedAxisX.map (fun x => formatLabel x (columnLabelFormats x) true)))

/-- C10: `useXAxisTitle` returns the empty string whenever the chart does not
support axis titles, or the configured title is the empty string, or
`xAxisShowAxisTitle` is false; otherwise it returns the configured title when
that is a non-empty string, and otherwise the labels of `selectedAxis.x`, each
formatted by `formatLabel` with its column-label format, joined with
`AXIS_TITLE_SEPARATOR`. -/
theorem useXAxisTitle_cases {F : Type} (formatLabel : String → Option F → Bool → String)
    (axisTitleSeparator : String) (columnLabelFormats : String → Option F)
    (isSupportedChartForAxisTitles : Bool) (xAxisAxisTitle : Option String)
    (xAxisShowAxisTitle : Bool) (selectedAxisX : List String) :
    ((isSupportedChartForAxisTitles = false ∨ xAxisAxisTitle = some "" ∨
        xAxisShowAxisTitle = false) →
      useXAxisTitle formatLabel axisTitleSeparator columnLabelFormats
        isSupportedChartForAxisTitles xAxisAxisTitle xAxisShowAxisTitle selectedAxisX = "") ∧
    (isSupportedChartForAxisTitles = true → xAxisShowAxisTitle = true →
      ∀ t : String, xAxisAxisTitle = some t → t ≠ "" →
      useXAxisTitle formatLabel axisTitleSeparator columnLabelFormats
        isSupportedChartForAxisTitles xAxisAxisTitle xAxisShowAxisTitle selectedAxisX = t) ∧
    (isSupportedChartForAxisTitles = true → xAxisShowAxisTitle = true →
      xAxisAxisTitle = none →
      useXAxisTitle formatLabel axisTitleSeparator columnLabelFormats
          isSupportedChartForAxisTitles xAxisAxisTitle xAxisShowAxisTitle selectedAxisX =
        String.intercalate axisTitleSeparator
          (selectedAxisX.map (fun x => formatLabel x (columnLabelFormats x) true))) := by
  refine ⟨?_, ?_, ?_⟩
  · rintro (h | h | h) <;> simp [useXAxisTitle, h]
  · rintro hs hshow t ht htne
    simp [useXAxisTitle, hs, hshow, ht, jsOrElse, htne]
  · rintro hs hshow ht
    simp [useXAxisTitle, hs, hshow, ht, jsOrElse]

/-- concrete instantiation of `useXAxisTitle_cases`: with a supported chart,
a shown title and configured title `T`, the hook returns `T`. -/
theorem useXAxisTitle_cases_witness :
    useXAxisTitle (fun x (_ : Option Unit) _ => x) "|" (fun _ => none) true (some "T") true
      ["c1", "c2"] = "T" := by
  exact (useXAxisTitle_cases (fun x (_ : Option Unit) _ => x) "|" (fun _ => none) true
    (some "T") true ["c1", "c2"]).2.1 rfl rfl "T" rfl (by decide)

/-- HTTP method of a request issued through `mainApi`. -/
inductive Method
  | get
  | post
  | put
  | delete
  deriving DecidableEq

/-- one `{id, assigned}` record, the element type of the assignment-update
lists sent by the `update…Users`/`…Datasets`/`…DatasetGroups` requests. -/
structure AssignUpdate where
  id : String
  assigned : Bool
  deriving Inhabited, DecidableEq

/-- one `{id, name}` record, the element type of the body of
`updatePermissionGroups`. -/
structure IdName where
  id : String
  name : String
  deriving DecidableEq

/-- request bodies used by the permission-group request functions. -/
inductive ReqBody
  | empty
  | assignedRows (rows : List AssignUpdate)
  | idNameRows (rows : List IdName)
  | nameOnly (name : String)
  deriving DecidableEq

/-- an HTTP request as issued through the `mainApi` axios instance. -/
structure HttpRequest where
  method : Method
  path : String
  body : ReqBody
  deriving DecidableEq

/-- an axios response; the request functions only read its `data` field. -/
structure AxiosResponse (V : Type) where
  data : V
  deriving DecidableEq

/-!
Each request function of `permission_groups/requests.ts` is embedded as a
function of the HTTP client `mainApi` (abstract: a map from a request to a
rejected (`Except.error`) or resolved (`Except.ok`) response), returning the
list of requests the call issues, in order, together with the settled value of
the returned promise. `E` is the type of rejection errors and `V` the type of
response `data` payloads.
-/

/-- embedding of `listAllPermissionGroups`: `GET /permission_groups`, resolved
with `res.data`. -/
def listAllPermissionGroups {E V : Type} (mainApi : HttpRequest → Except E (AxiosResponse V)) :
    List HttpRequest × Except E V :=
  let req : HttpRequest :=
    { method := Method.get, path := "/permission_groups", body := ReqBody.empty }
  ([req], (mainApi req).map (fun res => res.data))

/-- embedding of `getPermissionGroup`: `GET /permission_groups/{id}`. -/
def getPermissionGroup {E V : Type} (mainApi : HttpRequest → Except E (AxiosResponse V))
    (id : String) : List HttpRequest × Except E V :=
  let req : HttpRequest :=
    { method := Method.get, path := "/permission_groups/" ++ id, body := ReqBody.empty }
  ([req], (mainApi req).map (fun res => res.data))

/-- embedding of `updatePermissionGroups`: `PUT /permission_groups/{id}` with
the `{id, name}` list as body. -/
def updatePermissionGroups {E V : Type} (mainApi : HttpRequest → Except E (AxiosResponse V))
    (id : String) (data : List IdName) : List HttpRequest × Except E V :=
  let req : HttpRequest :=
    { method := Method.put, path := "/permission_groups/" ++ id, body := ReqBody.idNameRows data }
  ([req], (mainApi req).map (fun res => res.data))

/-- embedding of `deletePermissionGroup`: `DELETE /permission_groups/{id}`. -/
def deletePermissionGroup {E V : Type} (mainApi : HttpRequest → Except E (AxiosResponse V))
    (id : String) : List HttpRequest × Except E V :=
  let req : HttpRequest :=
    { method := Method.delete, path := "/permission_groups/" ++ id, body := ReqBody.empty }
  ([req], (mainApi req).map (fun res => res.data))

/-- embedding of `createPermissionGroup`: `POST /permission_groups` with body
`{name}`. -/
def createPermissionGroup {E V : Type} (mainApi : HttpRequest → Except E (AxiosResponse V))
    (name : String) : List HttpRequest × Except E V :=
  let req : HttpRequest :=
    { method := Method.post, path := "/permission_groups", body := ReqBody.nameOnly name }
  ([req], (mainApi req).map (fun res => res.data))

/-- embedding of `getPermissionGroupUsers`: `GET /permission_groups/{id}/users`. -/
def getPermissionGroupUsers {E V : Type} (mainApi : HttpRequest → Except E (AxiosResponse V))
    (id : String) : List HttpRequest × Except E V :=
  let req : HttpRequest :=
    { method := Method.get, path := "/permission_groups/" ++ id ++ "/users",
      body := ReqBody.empty }
  ([req], (mainApi req).map (fun res => res.data))

/-- embedding of `getPermissionGroupDatasets`:
`GET /permission_groups/{id}/datasets`. -/
def getPermissionGroupDatasets {E V : Type} (mainApi : HttpRequest → Except E (AxiosResponse V))
    (id : String) : List HttpRequest × Except E V :=
  let req : HttpRequest :=
    { method := Method.get, path := "/permission_groups/" ++ id ++ "/datasets",
      body := ReqBody.empty }
  ([req], (mainApi req).map (fun res => res.data))

/-- embedding of `getPermissionGroupDatasetGroups`:
`GET /permission_groups/{id}/dataset_groups`. -/
def getPermissionGroupDatasetGroups {E V : Type}
    (mainApi : HttpRequest → Except E (AxiosResponse V)) (id : String) :
    List HttpRequest × Except E V :=
  let req : HttpRequest :=
    { method := Method.get, path := "/permission_groups/" ++ id ++ "/dataset_groups",
      body := ReqBody.empty }
  ([req], (mainApi req).map (fun res => res.data))

/-- embedding of `updatePermissionGroupUsers`:
`PUT /permission_groups/{id}/users` with the `{id, assigned}` list as body. -/
def updatePermissionGroupUsers {E V : Type} (mainApi : HttpRequest → Except E (AxiosResponse V))
    (id : String) (data : List AssignUpdate) : List HttpRequest × Except E V :=
  let req : HttpRequest :=
    { method := Method.put, path := "/permission_groups/" ++ id ++ "/users",
      body := ReqBody.assignedRows data }
  ([req], (mainApi req).map (fun res => res.data))

/-- embedding of `updatePermissionGroupDatasets`:
`PUT /permission_groups/{id}/datasets` with the `{id, assigned}` list as body. -/
def updatePermissionGroupDatasets {E V : Type}
    (mainApi : HttpRequest → Except E (AxiosResponse V)) (id : String)
    (data : List AssignUpdate) : List HttpRequest × Except E V :=
  let req : HttpRequest :=
    { method := Method.put, path := "/permission_groups/" ++ id ++ "/datasets",
      body := ReqBody.assignedRows data }
  ([req], (mainApi req).map (fun res => res.data))

/-- embedding of `updatePermissionGroupDatasetGroups`:
`PUT /permission_groups/{id}/dataset_groups` with the `{id, assigned}` list as
body. -/
def updatePermissionGroupDatasetGroups {E V : Type}
    (mainApi : HttpRequest → Except E (AxiosResponse V)) (id : String)
    (data : List AssignUpdate) : List HttpRequest × Except E V :=
  let req : HttpRequest :=
    { method := Method.put, path := "/permission_groups/" ++ id ++ "/dataset_groups",
      body := ReqBody.assignedRows data }
  ([req], (mainApi req).map (fun res => res.data))

/-- C4: `updatePermissionGroupUsers` sends exactly one `PUT` request to
`/permission_groups/{id}/users` with the `{id, assigned}` list as the request
body and resolves with the response's `data`; analogously,
`updatePermissionGroupDatasets` sends a `PUT` to
`/permission_groups/{id}/datasets` and `updatePermissionGroupDatasetGroups`
a `PUT` to `/permission_groups/{id}/dataset_groups`. -/
theorem updatePermissionGroup_assignments_via_put {E V : Type}
    (mainApi : HttpRequest → Except E (AxiosResponse V)) (id : String)
    (data : List AssignUpdate) :
    ((updatePermissionGroupUsers mainApi id data).1 =
        [⟨Method.put, "/permission_groups/" ++ id ++ "/users", ReqBody.assignedRows data⟩] ∧
      ∀ r : AxiosResponse V,
        mainApi ⟨Method.put, "/permission_groups/" ++ id ++ "/users",
          ReqBody.assignedRows data⟩ = Except.ok r →
        (updatePermissionGroupUsers mainApi id data).2 = Except.ok r.data) ∧
    ((updatePermissionGroupDatasets mainApi id data).1 =
        [⟨Method.put, "/permission_groups/" ++ id ++ "/datasets", ReqBody.assignedRows data⟩] ∧
      ∀ r : AxiosResponse V,
        mainApi ⟨Method.put, "/permission_groups/" ++ id ++ "/datasets",
          ReqBody.assignedRows data⟩ = Except.ok r →
        (updatePermissionGroupDatasets mainApi id data).2 = Except.ok r.data) ∧
    ((updatePermissionGroupDatasetGroups mainApi id data).1 =
        [⟨Method.put, "/permission_groups/" ++ id ++ "/dataset_groups",
          ReqBody.assignedRows data⟩] ∧
      ∀ r : AxiosResponse V,
        mainApi ⟨Method.put, "/permission_groups/" ++ id ++ "/dataset_groups",
          ReqBody.assignedRows data⟩ = Except.ok r →
        (updatePermissionGroupDatasetGroups mainApi id data).2 = Except.ok r.data) := by
  refine ⟨⟨rfl, ?_⟩, ⟨rfl, ?_⟩, ⟨rfl, ?_⟩⟩ <;> intro r h
  · simp [updatePermissionGroupUsers, h, Except.map]
  · simp [updatePermissionGroupDatasets, h, Except.map]
  · simp [updatePermissionGroupDatasetGroups, h, Except.map]

/-- concrete instantiation of `updatePermissionGroup_assignments_via_put`:
with a client answering data `7`, `updatePermissionGroupUsers` resolves with
`7`. -/
theorem updatePermissionGroup_assignments_via_put_witness :
    (updatePermissionGroupUsers
        (fun _ => (Except.ok ⟨7⟩ : Except Unit (AxiosResponse Nat))) "g"
        [⟨"u", true⟩]).2 = Except.ok 7 := by
  exact (updatePermissionGroup_assignments_via_put
    (fun _ => (Except.ok ⟨7⟩ : Except Unit (AxiosResponse Nat))) "g"
    [⟨"u", true⟩]).1.2 ⟨7⟩ rfl

/-- C5: each permission-group CRUD request function issues exactly one request
to the documented endpoint with the documented method and body, and resolves
with the response's `data` field: `GET /permission_groups`,
`GET /permission_groups/{id}`, `POST /permission_groups` with body `{name}`,
`PUT /permission_groups/{id}` with the given body, and
`DELETE /permission_groups/{id}`. -/
theorem permissionGroup_crud_endpoints {E V : Type}
    (mainApi : HttpRequest → Except E (AxiosResponse V)) (id : String) (name : String)
    (data : List IdName) :
    ((listAllPermissionGroups mainApi).1 =
        [⟨Method.get, "/permission_groups", ReqBody.empty⟩] ∧
      ∀ r : AxiosResponse V,
        mainApi ⟨Method.get, "/permission_groups", ReqBody.empty⟩ = Except.ok r →
        (listAllPermissionGroups mainApi).2 = Except.ok r.data) ∧
    ((getPermissionGroup mainApi id).1 =
        [⟨Method.get, "/permission_groups/" ++ id, ReqBody.empty⟩] ∧
      ∀ r : AxiosResponse V,
        mainApi ⟨Method.get, "/permission_groups/" ++ id, ReqBody.empty⟩ = Except.ok r →
        (getPermissionGroup mainApi id).2 = Except.ok r.data) ∧
    ((createPermissionGroup mainApi name).1 =
        [⟨Method.post, "/permission_groups", ReqBody.nameOnly name⟩] ∧
      ∀ r : AxiosResponse V,
        mainApi ⟨Method.post, "/permission_groups", ReqBody.nameOnly name⟩ = Except.ok r →
        (createPermissionGroup mainApi name).2 = Except.ok r.data) ∧
    ((updatePermissionGroups mainApi id data).1 =
        [⟨Method.put, "/permission_groups/" ++ id, ReqBody.idNameRows data⟩] ∧
      ∀ r : AxiosResponse V,
        mainApi ⟨Method.put, "/permission_groups/" ++ id, ReqBody.idNameRows data⟩ =
          Except.ok r →
        (updatePermissionGroups mainApi id data).2 = Except.ok r.data) ∧
    ((deletePermissionGroup mainApi id).1 =
        [⟨Method.delete, "/permission_groups/" ++ id, ReqBody.empty⟩] ∧
      ∀ r : AxiosResponse V,
        mainApi ⟨Method.delete, "/permission_groups/" ++ id, ReqBody.empty⟩ = Except.ok r →
        (deletePermissionGroup mainApi id).2 = Except.ok r.data) := by
  refine ⟨⟨rfl, ?_⟩, ⟨rfl, ?_⟩, ⟨rfl, ?_⟩, ⟨rfl, ?_⟩, ⟨rfl, ?_⟩⟩ <;> intro r h
  · simp [listAllPermissionGroups, h, Except.map]
  · simp [getPermissionGroup, h, Except.map]
  · simp [createPermissionGroup, h, Except.map]
  · simp [updatePermissionGroups, h, Except.map]
  · simp [deletePermissionGroup, h, Except.map]

/-- concrete instantiation of `permissionGroup_crud_endpoints`: with a client
answering data `3`, `listAllPermissionGroups` resolves with `3`. -/
theorem permissionGroup_crud_endpoints_witness :
    (listAllPermissionGroups
        (fun _ => (Except.ok ⟨3⟩ : Except Unit (AxiosResponse Nat)))).2 = Except.ok 3 := by
  exact (permissionGroup_crud_endpoints
    (fun _ => (Except.ok ⟨3⟩ : Except Unit (AxiosResponse Nat))) "g" "n" []).1.2 ⟨3⟩ rfl

/-- C6: for every request function of `permission_groups/requests.ts`, when
the HTTP client rejects the issued request with error `e`, the function's
promise rejects with exactly `e` after exactly one request attempt: no retry
and no transformation of the error. -/
theorem permissionGroup_requests_propagate_errors {E V : Type}
    (mainApi : HttpRequest → Except E (AxiosResponse V)) (id : String) (name : String)
    (idNameData : List IdName) (assignData : List AssignUpdate) (e : E) :
    (mainApi ⟨Method.get, "/permission_groups", ReqBody.empty⟩ = Except.error e →
      listAllPermissionGroups mainApi =
        ([⟨Method.get, "/permission_groups", ReqBody.empty⟩], Except.error e)) ∧
    (mainApi ⟨Method.get, "/permission_groups/" ++ id, ReqBody.empty⟩ = Except.error e →
      getPermissionGroup mainApi id =
        ([⟨Method.get, "/permission_groups/" ++ id, ReqBody.empty⟩], Except.error e)) ∧
    (mainApi ⟨Method.put, "/permission_groups/" ++ id, ReqBody.idNameRows idNameData⟩ =
        Except.error e →
      updatePermissionGroups mainApi id idNameData =
        ([⟨Method.put, "/permission_groups/" ++ id, ReqBody.idNameRows idNameData⟩],
          Except.error e)) ∧
    (mainApi ⟨Method.delete, "/permission_groups/" ++ id, ReqBody.empty⟩ = Except.error e →
      deletePermissionGroup mainApi id =
        ([⟨Method.delete, "/permission_groups/" ++ id, ReqBody.empty⟩], Except.error e)) ∧
    (mainApi ⟨Method.post, "/permission_groups", ReqBody.nameOnly name⟩ = Except.error e →
      createPermissionGroup mainApi name =
        ([⟨Method.post, "/permission_groups", ReqBody.nameOnly name⟩], Except.error e)) ∧
    (mainApi ⟨Method.get, "/permission_groups/" ++ id ++ "/users", ReqBody.empty⟩ =
        Except.error e →
      getPermissionGroupUsers mainApi id =
        ([⟨Method.get, "/permission_groups/" ++ id ++ "/users", ReqBody.empty⟩],
          Except.error e)) ∧
    (mainApi ⟨Method.get, "/permission_groups/" ++ id ++ "/datasets", ReqBody.empty⟩ =
        Except.error e →
      getPermissionGroupDatasets mainApi id =
        ([⟨Method.get, "/permission_groups/" ++ id ++ "/datasets", ReqBody.empty⟩],
          Except.error e)) ∧
    (mainApi ⟨Method.get, "/permission_groups/" ++ id ++ "/dataset_groups", ReqBody.empty⟩ =
        Except.error e →
      getPermissionGroupDatasetGroups mainApi id =
        ([⟨Method.get, "/permission_groups/" ++ id ++ "/dataset_groups", ReqBody.empty⟩],
          Except.error e)) ∧
    (mainApi ⟨Method.put, "/permission_groups/" ++ id ++ "/users",
        ReqBody.assignedRows assignData⟩ = Except.error e →
      updatePermissionGroupUsers mainApi id assignData =
        ([⟨Method.put, "/permission_groups/" ++ id ++ "/users",
          ReqBody.assignedRows assignData⟩], Except.error e)) ∧
    (mainApi ⟨Method.put, "/permission_groups/" ++ id ++ "/datasets",
        ReqBody.assignedRows assignData⟩ = Except.error e →
      updatePermissionGroupDatasets mainApi id assignData =
        ([⟨Method.put, "/permission_groups/" ++ id ++ "/datasets",
          ReqBody.assignedRows assignData⟩], Except.error e)) ∧
    (mainApi ⟨Method.put, "/permission_groups/" ++ id ++ "/dataset_groups",
        ReqBody.assignedRows assignData⟩ = Except.error e →
      updatePermissionGroupDatasetGroups mainApi id assignData =
        ([⟨Method.put, "/permission_groups/" ++ id ++ "/dataset_groups",
          ReqBody.assignedRows assignData⟩], Except.error e)) := by
  refine ⟨?_, ?_, ?_, ?_, ?_, ?_, ?_, ?_, ?_, ?_, ?_⟩ <;> intro h
  · simp [listAllPermissionGroups, h, Except.map]
  · simp [getPermissionGroup, h, Except.map]
  · simp [updatePermissionGroups, h, Except.map]
  · simp [deletePermissionGroup, h, Except.map]
  · simp [createPermissionGroup, h, Except.map]
  · simp [getPermissionGroupUsers, h, Except.map]
  · simp [getPermissionGroupDatasets, h, Except.map]
  · simp [getPermissionGroupDatasetGroups, h, Except.map]
  · simp [updatePermissionGroupUsers, h, Except.map]
  · simp [updatePermissionGroupDatasets, h, Except.map]
  · simp [updatePermissionGroupDatasetGroups, h, Except.map]

/-- concrete instantiation of `permissionGroup_requests_propagate_errors`:
with a client rejecting every request with `"boom"`,
`listAllPermissionGroups` rejects with `"boom"` after its single request. -/
theorem permissionGroup_requests_propagate_errors_witness :
    listAllPermissionGroups
        (fun _ => (Except.error "boom" : Except String (AxiosResponse Nat))) =
      ([⟨Method.get, "/permission_groups", ReqBody.empty⟩], Except.error "boom") := by
  exact (permissionGroup_requests_propagate_errors
    (fun _ => (Except.error "boom" : Except String (AxiosResponse Nat)))
    "g" "n" [] [] "boom").1 rfl

/-- a cached DTO row as read by the dataset-group optimistic cache updates:
an `id`, the `assigned` flag, and all remaining fields of the row collected in
`rest` (abstract, of type `R`). -/
structure AssignRow (R : Type) where
  id : String
  assigned : Bool
  rest : R
  deriving DecidableEq

/-- an observable effect performed by a dataset-group mutation function, in
program order: a `queryClient.setQueryData` cache write, a
`queryClient.invalidateQueries` call, or a network request issued by one of
the (abstract) REST request functions. -/
inductive QueryEvent (R : Type)
  | setQueryData (queryKey : List String) (newData : List (AssignRow R))
  | invalidateQueries (queryKey : List String)
  | networkRequest (info : String)
  deriving DecidableEq

/-- embedding of the `setQueryData` updater of `useUpdateDatasetGroupUsers`:
every cached user whose id occurs in the update list gets the `assigned`
value of the first matching update entry, every other user is returned
unchanged. -/
def updateDatasetGroupUsersCache {R : Type} (data : List AssignUpdate)
    (oldData : List (AssignRow R)) : List (AssignRow R) :=
  oldData.map (fun user =>
    match data.find? (fun d => d.id == user.id) with
    | some userToUpdate => { user with assigned := userToUpdate.assigned }
    | none => user)

/-- embedding of the `setQueryData` updater of `useUpdateDatasetGroupDatasets`
(same logic as the users updater, over the cached dataset rows). -/
def updateDatasetGroupDatasetsCache {R : Type} (data : List AssignUpdate)
    (oldData : List (AssignRow R)) : List (AssignRow R) :=
  oldData.map (fun dataset =>
    match data.find? (fun d => d.id == dataset.id) with
    | some datasetToUpdate => { dataset with assigned := datasetToUpdate.assigned }
    | none => dataset)

/-- embedding of the `setQueryData` updater of
`useUpdateDatasetGroupPermissionGroups` (same logic, over the cached
permission-group rows). -/
def updateDatasetGroupPermissionGroupsCache {R : Type} (data : List AssignUpdate)
    (oldData : List (AssignRow R)) : List (AssignRow R) :=
  oldData.map (fun permissionGroup =>
    match data.find? (fun d => d.id == permissionGroup.id) with
    | some permissionGroupToUpdate =>
      { permissionGroup with assigned := permissionGroupToUpdate.assigned }
    | none => permissionGroup)

/-- embedding of the `mutationFn` of `useUpdateDatasetGroupUsers`: it writes
the optimistically updated list to the `['dataset_groups', id, 'users']`
cache key and then calls the `updateDatasetGroupUsers` request function
(abstract, since `dataset_groups/requests.ts` is outside the reviewed
sources), whose own events follow and whose settled value is returned. -/
def useUpdateDatasetGroupUsers_mutationFn {R E V : Type}
    (updateDatasetGroupUsers : String → List AssignUpdate → List (QueryEvent R) × Except E V)
    (datasetGroupId : String) (data : List AssignUpdate) (oldData : List (AssignRow R)) :
    List (QueryEvent R) × Except E V :=
  let call := updateDatasetGroupUsers datasetGroupId data
  (QueryEvent.setQueryData ["dataset_groups", datasetGroupId, "users"]
      (updateDatasetGroupUsersCache data oldData) :: call.1,
    call.2)

/-- embedding of the `mutationFn` of `useUpdateDatasetGroupDatasets`. -/
def useUpdateDatasetGroupDatasets_mutationFn {R E V : Type}
    (updateDatasetGroupDatasets : String → List AssignUpdate → List (QueryEvent R) × Except E V)
    (datasetGroupId : String) (data : List AssignUpdate) (oldData : List (AssignRow R)) :
    List (QueryEvent R) × Except E V :=
  let call := updateDatasetGroupDatasets datasetGroupId data
  (QueryEvent.setQueryData ["dataset_groups", datasetGroupId, "datasets"]
      (updateDatasetGroupDatasetsCache data oldData) :: call.1,
    call.2)

/-- embedding of the `mutationFn` of `useUpdateDatasetGroupPermissionGroups`. -/
def useUpdateDatasetGroupPermissionGroups_mutationFn {R E V : Type}
    (updateDatasetGroupPermissionGroups :
      String → List AssignUpdate → List (QueryEvent R) × Except E V)
    (datasetGroupId : String) (data : List AssignUpdate) (oldData : List (AssignRow R)) :
    List (QueryEvent R) × Except E V :=
  let call := updateDatasetGroupPermissionGroups datasetGroupId data
  (QueryEvent.setQueryData ["dataset_groups", datasetGroupId, "permission_groups"]
      (updateDatasetGroupPermissionGroupsCache data oldData) :: call.1,
    call.2)

/-- embedding of the `mutationFn` of `useDeleteDatasetGroup`: it awaits the
`deleteDatasetGroup` request (abstract, outside the reviewed sources), then
invalidates the `['dataset_groups']` query key and returns the request's
result; a rejection propagates before the invalidation is reached. -/
def useDeleteDatasetGroup_mutationFn {R E V : Type}
    (deleteDatasetGroup : String → List (QueryEvent R) × Except E V) (id : String) :
    List (QueryEvent R) × Except E V :=
  match deleteDatasetGroup id with
  | (t, Except.ok res) => (t ++ [QueryEvent.invalidateQueries ["dataset_groups"]], Except.ok res)
  | (t, Except.error e) => (t, Except.error e)

/-- embedding of the `mutationFn` of `useUpdateDatasetGroup`: same shape as
the delete hook, with the `updateDatasetGroup` request function (abstract)
taking an argument of abstract type `A`. -/
def useUpdateDatasetGroup_mutationFn {A R E V : Type}
    (updateDatasetGroup : A → List (QueryEvent R) × Except E V) (data : A) :
    List (QueryEvent R) × Except E V :=
  match updateDatasetGroup data with
  | (t, Except.ok res) => (t ++ [QueryEvent.invalidateQueries ["dataset_groups"]], Except.ok res)
  | (t, Except.error e) => (t, Except.error e)

/-- C3: the mutation of `useUpdateDatasetGroupUsers` (and analogously of
`useUpdateDatasetGroupDatasets` and `useUpdateDatasetGroupPermissionGroups`)
first performs the optimistic cache write and only then issues the request;
the cached list is replaced by a list of the same length and order in which
every row whose id occurs in the update list has `assigned` set to the value
given there (the first matching entry) and all other fields unchanged, and
every row whose id does not occur in the update list is entirely unchanged. -/
theorem useUpdateDatasetGroup_optimistic_cache {R E V : Type}
    (fUsers fDatasets fPermissionGroups :
      String → List AssignUpdate → List (QueryEvent R) × Except E V)
    (datasetGroupId : String) (data : List AssignUpdate) (oldData : List (AssignRow R)) :
    (useUpdateDatasetGroupUsers_mutationFn fUsers datasetGroupId data oldData =
        (QueryEvent.setQueryData ["dataset_groups", datasetGroupId, "users"]
            (updateDatasetGroupUsersCache data oldData) :: (fUsers datasetGroupId data).1,
          (fUsers datasetGroupId data).2) ∧
      (updateDatasetGroupUsersCache data oldData).length = oldData.length ∧
      (∀ (k : Nat) (hk : k < oldData.length) (u : AssignUpdate),
        data.find? (fun d => d.id == oldData[k].id) = some u →
        (updateDatasetGroupUsersCache data oldData)[k]? =
          some { oldData[k] with assigned := u.assigned }) ∧
      (∀ (k : Nat) (hk : k < oldData.length),
        (∀ d ∈ data, d.id ≠ oldData[k].id) →
        (updateDatasetGroupUsersCache data oldData)[k]? = some oldData[k])) ∧
    (useUpdateDatasetGroupDatasets_mutationFn fDatasets datasetGroupId data oldData =
        (QueryEvent.setQueryData ["dataset_groups", datasetGroupId, "datasets"]
            (updateDatasetGroupDatasetsCache data oldData) :: (fDatasets datasetGroupId data).1,
          (fDatasets datasetGroupId data).2) ∧
      (updateDatasetGroupDatasetsCache data oldData).length = oldData.length ∧
      (∀ (k : Nat) (hk : k < oldData.length) (u : AssignUpdate),
        data.find? (fun d => d.id == oldData[k].id) = some u →
        (updateDatasetGroupDatasetsCache data oldData)[k]? =
          some { oldData[k] with assigned := u.assigned }) ∧
      (∀ (k : Nat) (hk : k < oldData.length),
        (∀ d ∈ data, d.id ≠ oldData[k].id) →
        (updateDatasetGroupDatasetsCache data oldData)[k]? = some oldData[k])) ∧
    (useUpdateDatasetGroupPermissionGroups_mutationFn fPermissionGroups datasetGroupId data
          oldData =
        (QueryEvent.setQueryData ["dataset_groups", datasetGroupId, "permission_groups"]
            (updateDatasetGroupPermissionGroupsCache data oldData) ::
            (fPermissionGroups datasetGroupId data).1,
          (fPermissionGroups datasetGroupId data).2) ∧
      (updateDatasetGroupPermissionGroupsCache data oldData).length = oldData.length ∧
      (∀ (k : Nat) (hk : k < oldData.length) (u : AssignUpdate),
        data.find? (fun d => d.id == oldData[k].id) = some u →
        (updateDatasetGroupPermissionGroupsCache data oldData)[k]? =
          some { oldData[k] with assigned := u.assigned }) ∧
      (∀ (k : Nat) (hk : k < oldData.length),
        (∀ d ∈ data, d.id ≠ oldData[k].id) →
        (updateDatasetGroupPermissionGroupsCache data oldData)[k]? = some oldData[k])) := by
  refine ⟨⟨rfl, List.length_map _ _, ?_, ?_⟩, ⟨rfl, List.length_map _ _, ?_, ?_⟩,
    ⟨rfl, List.length_map _ _, ?_, ?_⟩⟩
  · intro k hk u hu
    simp [updateDatasetGroupUsersCache, List.getElem?_map, List.getElem?_eq_getElem hk, hu]
  · intro k hk hno
    have hfind : data.find? (fun d => d.id == oldData[k].id) = none := by
      rw [List.find?_eq_none]
      intro d hd
      simpa using hno d hd
    simp [updateDatasetGroupUsersCache, List.getElem?_map, List.getElem?_eq_getElem hk, hfind]
  · intro k hk u hu
    simp [updateDatasetGroupDatasetsCache, List.getElem?_map, List.getElem?_eq_getElem hk, hu]
  · intro k hk hno
    have hfind : data.find? (fun d => d.id == oldData[k].id) = none := by
      rw [List.find?_eq_none]
      intro d hd
      simpa using hno d hd
    simp [updateDatasetGroupDatasetsCache, List.getElem?_map, List.getElem?_eq_getElem hk,
      hfind]
  · intro k hk u hu
    simp [updateDatasetGroupPermissionGroupsCache, List.getElem?_map,
      List.getElem?_eq_getElem hk, hu]
  · intro k hk hno
    have hfind : data.find? (fun d => d.id == oldData[k].id) = none := by
      rw [List.find?_eq_none]
      intro d hd
      simpa using hno d hd
    simp [updateDatasetGroupPermissionGroupsCache, List.getElem?_map,
      List.getElem?_eq_getElem hk, hfind]

/-- concrete instantiation of `useUpdateDatasetGroup_optimistic_cache`: the
cached row `a` (unassigned) becomes assigned after the optimistic update
`[{id := a, assigned := true}]`. -/
theorem useUpdateDatasetGroup_optimistic_cache_witness :
    (updateDatasetGroupUsersCache [⟨"a", true⟩]
        ([⟨"a", false, ()⟩] : List (AssignRow Unit)))[0]? = some ⟨"a", true, ()⟩ := by
  exact (useUpdateDatasetGroup_optimistic_cache
    (fun _ _ => ([], (Except.ok 0 : Except Unit Nat)))
    (fun _ _ => ([], Except.ok 0)) (fun _ _ => ([], Except.ok 0))
    "g" [⟨"a", true⟩] [⟨"a", false, ()⟩]).1.2.2.1 0 (by decide) ⟨"a", true⟩ rfl

/-- C7: the mutations of `useDeleteDatasetGroup` and `useUpdateDatasetGroup`
invalidate the `'dataset_groups'` query key only after the network request
resolves, resolve with the request's result unchanged, and perform no
invalidation when the request rejects. -/
theorem datasetGroup_invalidate_after_settle {A R E V : Type}
    (deleteDatasetGroup : String → List (QueryEvent R) × Except E V)
    (updateDatasetGroup : A → List (QueryEvent R) × Except E V)
    (id : String) (data : A) :
    (∀ (t : List (QueryEvent R)) (res : V), deleteDatasetGroup id = (t, Except.ok res) →
      useDeleteDatasetGroup_mutationFn deleteDatasetGroup id =
        (t ++ [QueryEvent.invalidateQueries ["dataset_groups"]], Except.ok res)) ∧
    (∀ (t : List (QueryEvent R)) (e : E), deleteDatasetGroup id = (t, Except.error e) →
      useDeleteDatasetGroup_mutationFn deleteDatasetGroup id = (t, Except.error e)) ∧
    (∀ (t : List (QueryEvent R)) (res : V), updateDatasetGroup data = (t, Except.ok res) →
      useUpdateDatasetGroup_mutationFn updateDatasetGroup data =
        (t ++ [QueryEvent.invalidateQueries ["dataset_groups"]], Except.ok res)) ∧
    (∀ (t : List (QueryEvent R)) (e : E), updateDatasetGroup data = (t, Except.error e) →
      useUpdateDatasetGroup_mutationFn updateDatasetGroup data = (t, Except.error e)) := by
  refine ⟨?_, ?_, ?_, ?_⟩ <;> intro t x h <;>
    simp [useDeleteDatasetGroup_mutationFn, useUpdateDatasetGroup_mutationFn, h]

/-- concrete instantiation of `datasetGroup_invalidate_after_settle`: a
resolving delete request is followed by the invalidation of
`['dataset_groups']` and its result is returned unchanged. -/
theorem datasetGroup_invalidate_after_settle_witness :
    useDeleteDatasetGroup_mutationFn
        (fun i => (([QueryEvent.networkRequest ("DELETE " ++ i)] : List (QueryEvent Unit)),
          (Except.ok 1 : Except Unit Nat))) "g" =
      ([QueryEvent.networkRequest "DELETE g", QueryEvent.invalidateQueries ["dataset_groups"]],
        Except.ok 1) := by
  have h := (datasetGroup_invalidate_after_settle
    (fun i => (([QueryEvent.networkRequest ("DELETE " ++ i)] : List (QueryEvent Unit)),
      (Except.ok 1 : Except Unit Nat)))
    (fun (_ : Unit) => ([], Except.ok 1)) "g" ()).1
    [QueryEvent.networkRequest "DELETE g"] 1 rfl
  simpa using h

/-- a `BusterUserDataset` row as read by `UserDatasetsListContainer`: its
`id`, its `assigned` flag, and all remaining fields collected in `rest`. -/
structure BusterUserDataset (R : Type) where
  id : String
  assigned : Bool
  rest : R
  deriving DecidableEq

/-- the `rowSection` payload of a section-header row. -/
structure RowSection where
  title : String
  secondaryTitle : String
  deriving DecidableEq

/-- a `BusterListRowItem` as built by `UserDatasetsListContainer`: data rows
carry the dataset and a link; section-header rows carry a `rowSection` and a
`hidden` flag (fields absent in the source objects are `none`/`false`). -/
structure BusterListRowItem (R : Type) where
  id : String
  data : Option (BusterUserDataset R)
  link : Option String
  hidden : Bool
  rowSection : Option RowSection
  deriving DecidableEq

/-- the data row built for one dataset inside the reduce of
`UserDatasetsListContainer` (`createBusterRoute` is the abstract route
helper, applied to the dataset id as in the source). -/
def datasetRowItem {R : Type} (createBusterRoute : String → String)
    (dataset : BusterUserDataset R) : BusterListRowItem R :=
  { id := dataset.id, data := some dataset, link := some (createBusterRoute dataset.id),
    hidden := false, rowSection := none }

/-- embedding of the reduce of `UserDatasetsListContainer` that splits the
filtered datasets into `(cannotQueryPermissionUsers, canQueryPermissionUsers)`
(in that order, matching the accumulator object): assigned datasets are pushed
onto the `can` list, the others onto the `cannot` list. -/
def userDatasetsPartition {R : Type} (createBusterRoute : String → String)
    (filteredDatasets : List (BusterUserDataset R)) :
    List (BusterListRowItem R) × List (BusterListRowItem R) :=
  filteredDatasets.foldl
    (fun acc dataset =>
      let user := datasetRowItem createBusterRoute dataset
      if dataset.assigned then (acc.1, acc.2 ++ [user]) else (acc.1 ++ [user], acc.2))
    ([], [])

/-- embedding of the `rows` memo of `UserDatasetsListContainer`: the
`Assigned` header, the assigned rows, the `Not Assigned` header and the
unassigned rows, with each header hidden when its section is empty and the
hidden rows filtered out. -/
def userDatasetsRows {R : Type} (createBusterRoute : String → String)
    (filteredDatasets : List (BusterUserDataset R)) : List (BusterListRowItem R) :=
  let p := userDatasetsPartition createBusterRoute filteredDatasets
  let cannotQueryPermissionUsers := p.1
  let canQueryPermissionUsers := p.2
  (({ id := "header-assigned", data := none, link := none,
      hidden := canQueryPermissionUsers.length == 0,
      rowSection := some (RowSection.mk "Assigned"
        (toString canQueryPermissionUsers.length)) } ::
    canQueryPermissionUsers) ++
    ({ id := "header-not-assigned", data := none, link := none,
       hidden := cannotQueryPermissionUsers.length == 0,
       rowSection := some (RowSection.mk "Not Assigned"
         (toString cannotQueryPermissionUsers.length)) } ::
    cannotQueryPermissionUsers)).filter (fun row => !row.hidden)

/-- the reduce of `UserDatasetsListContainer`, run from any accumulator,
appends the unassigned rows (in input order) to the first component and the
assigned rows (in input order) to the second. -/
theorem userDatasetsPartition_foldl {R : Type} (createBusterRoute : String → String)
    (filteredDatasets : List (BusterUserDataset R)) :
    ∀ acc : List (BusterListRowItem R) × List (BusterListRowItem R),
    filteredDatasets.foldl
        (fun acc dataset =>
          let user := datasetRowItem createBusterRoute dataset
          if dataset.assigned then (acc.1, acc.2 ++ [user]) else (acc.1 ++ [user], acc.2))
        acc =
      (acc.1 ++ (filteredDatasets.filter (fun d => !d.assigned)).map
          (datasetRowItem createBusterRoute),
        acc.2 ++ (filteredDatasets.filter (fun d => d.assigned)).map
          (datasetRowItem createBusterRoute)) := by
  induction filteredDatasets with
  | nil => intro acc; simp
  | cons d ds ih =>
    intro acc
    by_cases hd : d.assigned = true <;>
      simp [List.foldl_cons, hd, ih, List.filter_cons, List.append_assoc]

/-- the reduce of `UserDatasetsListContainer` computes exactly
(unassigned rows, assigned rows), each in input order. -/
theorem userDatasetsPartition_eq {R : Type} (createBusterRoute : String → String)
    (filteredDatasets : List (BusterUserDataset R)) :
    userDatasetsPartition createBusterRoute filteredDatasets =
      ((filteredDatasets.filter (fun d => !d.assigned)).map (datasetRowItem createBusterRoute),
        (filteredDatasets.filter (fun d => d.assigned)).map
          (datasetRowItem createBusterRoute)) := by
  have h := userDatasetsPartition_foldl createBusterRoute filteredDatasets ([], [])
  simpa [userDatasetsPartition] using h

/-- data rows are never hidden, so the final filter keeps all of them. -/
theorem filter_not_hidden_map {R : Type} (createBusterRoute : String → String)
    (l : List (BusterUserDataset R)) :
    (l.map (datasetRowItem createBusterRoute)).filter (fun row => !row.hidden) =
      l.map (datasetRowItem createBusterRoute) := by
  apply List.filter_eq_self.mpr
  intro a ha
  rcases List.mem_map.mp ha with ⟨d, _, rfl⟩
  rfl

/-- C9: the row list of `UserDatasetsListContainer` contains each input
dataset exactly once, all assigned datasets (in input order) before all
unassigned ones (in input order); the `Assigned` header row is present iff at
least one dataset is assigned and the `Not Assigned` header iff at least one
is not; each header's secondary title is the decimal string of the number of
rows in its section. -/
theorem userDatasetsRows_sections {R : Type} (createBusterRoute : String → String)
    (filteredDatasets : List (BusterUserDataset R)) :
    userDatasetsRows createBusterRoute filteredDatasets =
      (if filteredDatasets.any (fun d => d.assigned) then
        [{ id := "header-assigned", data := none, link := none, hidden := false,
           rowSection := some (RowSection.mk "Assigned"
             (toString (filteredDatasets.filter (fun d => d.assigned)).length)) }]
      else []) ++
      (filteredDatasets.filter (fun d => d.assigned)).map (datasetRowItem createBusterRoute) ++
      (if filteredDatasets.any (fun d => !d.assigned) then
        [{ id := "header-not-assigned", data := none, link := none, hidden := false,
           rowSection := some (RowSection.mk "Not Assigned"
             (toString (filteredDatasets.filter (fun d => !d.assigned)).length)) }]
      else []) ++
      (filteredDatasets.filter (fun d => !d.assigned)).map
        (datasetRowItem createBusterRoute) := by
  have hpart := userDatasetsPartition_eq createBusterRoute filteredDatasets
  unfold userDatasetsRows
  rw [hpart]
  dsimp only
  by_cases hA : filteredDatasets.filter (fun d => d.assigned) = []
  all_goals by_cases hN : filteredDatasets.filter (fun d => !d.assigned) = []
  · have hAany : filteredDatasets.any (fun d => d.assigned) = false :=
      List.any_eq_false.mpr (by simpa using List.filter_eq_nil_iff.mp hA)
    have hNany : filteredDatasets.any (fun d => !d.assigned) = false :=
      List.any_eq_false.mpr (by simpa using List.filter_eq_nil_iff.mp hN)
    simp [hA, hN, hAany, hNany, List.filter_cons]
  · have hAany : filteredDatasets.any (fun d => d.assigned) = false :=
      List.any_eq_false.mpr (by simpa using List.filter_eq_nil_iff.mp hA)
    have hNany : filteredDatasets.any (fun d => !d.assigned) = true := by
      rcases List.exists_mem_of_ne_nil _ hN with ⟨x, hx⟩
      rcases List.mem_filter.mp hx with ⟨hx1, hx2⟩
      exact List.any_eq_true.mpr ⟨x, hx1, hx2⟩
    have hNlen : ((filteredDatasets.filter (fun d => !d.assigned)).length == 0) = false := by
      simp [beq_eq_false_iff_ne, List.length_eq_zero, hN]
    simp [hA, hAany, hNany, hNlen, List.filter_cons, List.filter_append,
      filter_not_hidden_map]
  · have hAany : filteredDatasets.any (fun d => d.assigned) = true := by
      rcases List.exists_mem_of_ne_nil _ hA with ⟨x, hx⟩
      rcases List.mem_filter.mp hx with ⟨hx1, hx2⟩
      exact List.any_eq_true.mpr ⟨x, hx1, hx2⟩
    have hAlen : ((filteredDatasets.filter (fun d => d.assigned)).length == 0) = false := by
      simp [beq_eq_false_iff_ne, List.length_eq_zero, hA]
    have hNany : filteredDatasets.any (fun d => !d.assigned) = false :=
      List.any_eq_false.mpr (by simpa using List.filter_eq_nil_iff.mp hN)
    simp [hN, hAany, hAlen, hNany, List.filter_cons, List.filter_append,
      filter_not_hidden_map]
  · have hAany : filteredDatasets.any (fun d => d.assigned) = true := by
      rcases List.exists_mem_of_ne_nil _ hA with ⟨x, hx⟩
      rcases List.mem_filter.mp hx with ⟨hx1, hx2⟩
      exact List.any_eq_true.mpr ⟨x, hx1, hx2⟩
    have hAlen : ((filteredDatasets.filter (fun d => d.assigned)).length == 0) = false := by
      simp [beq_eq_false_iff_ne, List.length_eq_zero, hA]
    have hNany : filteredDatasets.any (fun d => !d.assigned) = true := by
      rcases List.exists_mem_of_ne_nil _ hN with ⟨x, hx⟩
      rcases List.mem_filter.mp hx with ⟨hx1, hx2⟩
      exact List.any_eq_true.mpr ⟨x, hx1, hx2⟩
    have hNlen : ((filteredDatasets.filter (fun d => !d.assigned)).length == 0) = false := by
      simp [beq_eq_false_iff_ne, List.length_eq_zero, hN]
    simp [hAany, hAlen, hNany, hNlen, List.filter_cons, List.filter_append,
      filter_not_hidden_map]

end Buster
